import Mathlib

/-!
Verification of the offline transaction ledger and sync reconciliation engine
of the UPI offline payment client.

The development shallowly embeds the IndexedDB-backed ledger code:

* `src/lib/db/dexie-client.ts` — record types (`LocalTransaction`,
  `LocalWalletState`, `LocalDailyStats`) and the three object stores used by
  the ledger, modelled as lists of records (`DB`).
* `src/lib/db/transaction-queue.ts` — `createOfflineTransaction`,
  `getPendingTransactions`, `markTransactionSynced`, `markTransactionFailed`.
* `src/lib/db/wallet-state.ts` — `syncWalletStateFromServer`,
  `updateOfflineBalance`, `clearSyncDeadline`, `updateLastSyncTimestamp`,
  `recalculateOfflineBalance`, `walletNeedsSync`, `hasExceededSyncDeadline`,
  `getWalletSyncStatus`.
* `src/lib/sync/wallet-sync.ts` — `syncWalletState`.
* `src/lib/sync/transaction-sync.ts` — `syncTransaction`.

Modelling conventions:

* Money amounts are integer paise, modelled as `Int` (JavaScript numbers are
  used only integrally for these fields).
* ISO-8601 timestamp strings are modelled as `Int` epoch milliseconds: the
  code only ever compares them through `new Date(...)`, and ISO order agrees
  with numeric time order. Calendar dates (the `YYYY-MM-DD` prefix used for
  `dailyStats.date`) are modelled as a `Nat` day index.
* Each asynchronous function that reads the clock or generates ids receives
  the current time and the freshly generated ids as explicit parameters.
* Dexie object stores are lists of records; `Table.get`/`where(...).first()`
  is a first-match lookup, `Table.update` applies the change object to the
  rows with the given primary key, `Table.put` replaces by primary key or
  inserts, `Table.add` appends (failing if the key is already present).
  An equality query over an index (`where(ix).equals(v).toArray()`) returns
  the matching rows in index order; with a single index value this is
  primary-key order, modelled by sorting on the `id` field.
* Remote I/O (the Supabase fetch in `syncWalletStateFromServer`, the insert
  in `syncTransaction`) is modelled by passing the remote response as a
  parameter.
-/

namespace UPIOffline

/-- Transaction status union from `dexie-client.ts` (`LocalTransaction.status`). -/
inductive TxStatus
  | pending
  | processing
  | completed
  | failed
  | cancelled
deriving DecidableEq, Repr

/-- Wallet status union from `dexie-client.ts` (`LocalWalletState.status`). -/
inductive WalletStatus
  | active
  | frozen
  | suspended
  | closed
deriving DecidableEq, Repr

/-- Transaction kind union (`transaction_type`). -/
inductive TxKind
  | payment
  | receive
  | refund
  | topup
deriving DecidableEq, Repr

/-- Payment method union (`payment_method`). -/
inductive PayMethod
  | nfc
  | qr
  | manual
deriving DecidableEq, Repr

/-- `LocalTransaction` record from `dexie-client.ts`. Timestamp strings are
`Int` epoch milliseconds, latitude/longitude/accuracy are opaque numeric
payload (never computed with in the embedded code). -/
structure LocalTransaction where
  id : String
  sender_wallet_id : Option String
  receiver_wallet_id : Option String
  merchant_id : Option String
  amount_paise : Int
  description : Option String
  reference_id : Option String
  transaction_type : TxKind
  payment_method : PayMethod
  status : TxStatus
  is_offline : Bool
  created_offline_at : Option Int
  synced_at : Option Int
  nfc_tag_id : Option String
  nfc_signature : Option String
  qr_code_data : Option String
  device_id : Option String
  device_fingerprint : Option String
  latitude : Option Int
  longitude : Option Int
  location_accuracy : Option Int
  error_code : Option String
  error_message : Option String
  retry_count : Nat
  created_at : Int
  updated_at : Int
  completed_at : Option Int
  needs_sync : Bool
  sync_attempts : Nat
  last_sync_attempt : Option Int
deriving DecidableEq, Repr

/-- `LocalWalletState` record from `dexie-client.ts`. -/
structure LocalWalletState where
  id : String
  user_id : String
  upi_id : String
  upi_provider : Option String
  balance_paise : Int
  max_balance_paise : Int
  max_transaction_paise : Int
  max_daily_transactions : Nat
  max_offline_transactions : Nat
  status : WalletStatus
  last_sync_at : Option Int
  pending_sync_count : Nat
  sync_deadline : Option Int
  cached_at : Int
  offline_balance_paise : Int
deriving DecidableEq, Repr

/-- `LocalDailyStats` record from `dexie-client.ts`. `date` is a day index. -/
structure LocalDailyStats where
  id : String
  wallet_id : String
  date : Nat
  transaction_count : Nat
  total_amount_paise : Int
  offline_transaction_count : Nat
  updated_at : Int
deriving DecidableEq, Repr

/-- The three object stores of `UPIOfflineDB` that the ledger code touches
(`transactions`, `walletState`, `dailyStats`). -/
structure DB where
  transactions : List LocalTransaction
  walletState : List LocalWalletState
  dailyStats : List LocalDailyStats
deriving DecidableEq, Repr

/-- `NPCI_LIMITS` constants from `helpers.ts` (amounts in paise). -/
def NPCI_MAX_TRANSACTION_AMOUNT : Int := 100000

/-- `NPCI_LIMITS.MAX_WALLET_BALANCE` from `helpers.ts`. -/
def NPCI_MAX_WALLET_BALANCE : Int := 500000

/-- `NPCI_LIMITS.SYNC_DEADLINE_DAYS * 24 * 60 * 60 * 1000`: the sync deadline
duration of 4 days, in milliseconds, as added to `Date.now()` in
`createOfflineTransaction`. -/
def SYNC_DEADLINE_MS : Int := 4 * 24 * 60 * 60 * 1000

/-- One day in milliseconds (`oneDayInMs` in `walletNeedsSync`). -/
def ONE_DAY_MS : Int := 24 * 60 * 60 * 1000

/-- `db.walletState.get(walletId)`: first row with the given primary key. -/
def findWallet (walletId : String) (db : DB) : Option LocalWalletState :=
  db.walletState.find? (fun w => w.id == walletId)

/-- `db.walletState.update(walletId, changes)`: apply the change to the rows
with the given primary key. -/
def updateWalletRows (walletId : String) (f : LocalWalletState → LocalWalletState)
    (db : DB) : DB :=
  { db with walletState := db.walletState.map (fun w => if w.id == walletId then f w else w) }

/-- `db.transactions.get(id)`. -/
def findTx (id : String) (db : DB) : Option LocalTransaction :=
  db.transactions.find? (fun t => t.id == id)

/-- `db.transactions.update(id, changes)`. -/
def updateTxRows (id : String) (f : LocalTransaction → LocalTransaction)
    (db : DB) : DB :=
  { db with transactions := db.transactions.map (fun t => if t.id == id then f t else t) }

/-- `db.dailyStats.where("[wallet_id+date]").equals([walletId, today]).first()`:
first stats row for the wallet and calendar day. -/
def findStats (walletId : String) (today : Nat) (db : DB) : Option LocalDailyStats :=
  db.dailyStats.find? (fun s => s.wallet_id == walletId && s.date == today)

/-- `db.dailyStats.update(id, changes)`. -/
def updateStatsRows (id : String) (f : LocalDailyStats → LocalDailyStats)
    (db : DB) : DB :=
  { db with dailyStats := db.dailyStats.map (fun s => if s.id == id then f s else s) }

/-- `db.walletState.put(w)`: replace the row with the same primary key, or
insert the row if no such key exists. -/
def putWallet (w : LocalWalletState) (db : DB) : DB :=
  if db.walletState.any (fun x => x.id == w.id) then
    { db with walletState := db.walletState.map (fun x => if x.id == w.id then w else x) }
  else
    { db with walletState := db.walletState ++ [w] }

/-- Parameter record of `createOfflineTransaction` (`transaction-queue.ts`).
Optional JavaScript parameters that the function coalesces with `|| null`
are `Option` values. -/
structure CreateTxParams where
  senderWalletId : String
  receiverWalletId : Option String
  merchantId : Option String
  amountPaise : Int
  description : Option String
  transactionType : TxKind
  paymentMethod : PayMethod
  nfcTagId : Option String := none
  nfcSignature : Option String := none
  qrCodeData : Option String := none
  deviceId : Option String := none
  deviceFingerprint : Option String := none
  latitude : Option Int := none
  longitude : Option Int := none
  locationAccuracy : Option Int := none
deriving DecidableEq, Repr

/-- Result union of `createOfflineTransaction`:
`{ success: true, transaction }` or `{ success: false, error }`. -/
inductive CreateTxResult
  | success (transaction : LocalTransaction)
  | failure (error : String)
deriving DecidableEq, Repr

/-- Whether a `CreateTxResult` is the success variant. -/
def CreateTxResult.isSuccess : CreateTxResult → Bool
  | .success _ => true
  | .failure _ => false

/-- Error string of the `amountPaise <= 0` check. -/
def msgInvalidAmount : String := "Amount must be greater than zero"

/-- Error string of the NPCI per-transaction cap check:
the template with `currency.format(NPCI_LIMITS.MAX_TRANSACTION_AMOUNT)` filled in. -/
def msgNpciLimit : String := "Amount exceeds NPCI limit of ₹1000.00"

/-- Error string for a missing wallet row. -/
def msgWalletNotFound : String := "Wallet not found in local storage"

/-- Error string for a non-active wallet. -/
def msgWalletNotActive : String := "Wallet is not active"

/-- Error string for insufficient offline balance. -/
def msgInsufficientBalance : String := "Insufficient balance"

/-- Error string for the daily transaction count limit. -/
def msgDailyLimit : String := "Daily transaction limit exceeded"

/-- Error string for the offline transaction count limit. -/
def msgOfflineLimit : String := "Offline transaction limit exceeded. Please sync your wallet."

/-- Error string for an exceeded sync deadline. -/
def msgDeadlineExceeded : String := "Sync deadline exceeded. Please sync your wallet."

/-- Error string of the catch-all handler around the atomic write. -/
def msgStorageFailure : String := "Failed to create transaction"

/-- The admission check cascade of `createOfflineTransaction`, as a pure
policy function: `some error` when one of the validation checks fires (in
source order), `none` when the transaction would be admitted. This mirrors
the early-return checks of `transaction-queue.ts` lines 276-337 exactly. -/
def admissionPolicyError (p : CreateTxParams) (now : Int) (today : Nat)
    (db : DB) : Option String :=
  if p.amountPaise ≤ 0 then some msgInvalidAmount
  else if NPCI_MAX_TRANSACTION_AMOUNT < p.amountPaise then some msgNpciLimit
  else
    match findWallet p.senderWalletId db with
    | none => some msgWalletNotFound
    | some walletState =>
      if walletState.status ≠ .active then some msgWalletNotActive
      else if walletState.offline_balance_paise < p.amountPaise then
        some msgInsufficientBalance
      else
        let todayStats := findStats p.senderWalletId today db
        let curCount := (todayStats.map (fun s => s.transaction_count)).getD 0
        let curOffline := (todayStats.map (fun s => s.offline_transaction_count)).getD 0
        if walletState.max_daily_transactions ≤ curCount then some msgDailyLimit
        else if walletState.max_offline_transactions ≤ curOffline then some msgOfflineLimit
        else
          match walletState.sync_deadline with
          | some d => if d < now then some msgDeadlineExceeded else none
          | none => none

/-- The new `LocalTransaction` row built by `createOfflineTransaction`
(lines 339-373): status pending, offline, needs_sync, zero retry counters. -/
def newOfflineTx (p : CreateTxParams) (now : Int) (freshTxId refId : String) :
    LocalTransaction :=
  { id := freshTxId
    sender_wallet_id := some p.senderWalletId
    receiver_wallet_id := p.receiverWalletId
    merchant_id := p.merchantId
    amount_paise := p.amountPaise
    description := p.description
    reference_id := some refId
    transaction_type := p.transactionType
    payment_method := p.paymentMethod
    status := .pending
    is_offline := true
    created_offline_at := some now
    synced_at := none
    nfc_tag_id := p.nfcTagId
    nfc_signature := p.nfcSignature
    qr_code_data := p.qrCodeData
    device_id := p.deviceId
    device_fingerprint := p.deviceFingerprint
    latitude := p.latitude
    longitude := p.longitude
    location_accuracy := p.locationAccuracy
    error_code := none
    error_message := none
    retry_count := 0
    created_at := now
    updated_at := now
    completed_at := none
    needs_sync := true
    sync_attempts := 0
    last_sync_attempt := none }

/-- `createOfflineTransaction` from `transaction-queue.ts`.

`now` is the clock reading (`Date.now()` / `new Date().toISOString()`),
`today` the current calendar day, `freshTxId` and `freshStatsId` the two
`nanoid()` values, `refId` the `generateTransactionReference()` value. The
validation cascade runs first against the current store; on approval the
transaction row, the wallet projection update and the daily stats update are
applied together (the source wraps them in one
`db.transaction("rw", ...)` unit). A primary-key collision on either `add`
makes the unit throw and roll back, which the catch-all turns into the
generic failure with the store untouched. -/
def createOfflineTransaction (p : CreateTxParams) (now : Int) (today : Nat)
    (freshTxId freshStatsId refId : String) (db : DB) : CreateTxResult × DB :=
  if p.amountPaise ≤ 0 then (.failure msgInvalidAmount, db)
  else if NPCI_MAX_TRANSACTION_AMOUNT < p.amountPaise then (.failure msgNpciLimit, db)
  else
    match findWallet p.senderWalletId db with
    | none => (.failure msgWalletNotFound, db)
    | some walletState =>
      if walletState.status ≠ .active then (.failure msgWalletNotActive, db)
      else if walletState.offline_balance_paise < p.amountPaise then
        (.failure msgInsufficientBalance, db)
      else
        let todayStats := findStats p.senderWalletId today db
        let curCount := (todayStats.map (fun s => s.transaction_count)).getD 0
        let curOffline := (todayStats.map (fun s => s.offline_transaction_count)).getD 0
        let curTotal := (todayStats.map (fun s => s.total_amount_paise)).getD 0
        if walletState.max_daily_transactions ≤ curCount then (.failure msgDailyLimit, db)
        else if walletState.max_offline_transactions ≤ curOffline then
          (.failure msgOfflineLimit, db)
        else if (match walletState.sync_deadline with
                 | some d => decide (d < now)
                 | none => false) then
          (.failure msgDeadlineExceeded, db)
        else if db.transactions.any (fun t => t.id == freshTxId) then
          (.failure msgStorageFailure, db)
        else if todayStats == none && db.dailyStats.any (fun s => s.id == freshStatsId) then
          (.failure msgStorageFailure, db)
        else
          let tx := newOfflineTx p now freshTxId refId
          let db1 := { db with transactions := db.transactions ++ [tx] }
          let db2 := updateWalletRows p.senderWalletId (fun w =>
            { w with
              offline_balance_paise := walletState.offline_balance_paise - p.amountPaise
              pending_sync_count := walletState.pending_sync_count + 1
              sync_deadline := some (walletState.sync_deadline.getD (now + SYNC_DEADLINE_MS)) }) db1
          let db3 :=
            match todayStats with
            | some ts =>
              updateStatsRows ts.id (fun s =>
                { s with
                  transaction_count := curCount + 1
                  offline_transaction_count := curOffline + 1
                  total_amount_paise := curTotal + p.amountPaise
                  updated_at := now }) db2
            | none =>
              { db2 with dailyStats := db2.dailyStats ++
                  [{ id := freshStatsId
                     wallet_id := p.senderWalletId
                     date := today
                     transaction_count := 1
                     offline_transaction_count := 1
                     total_amount_paise := p.amountPaise
                     updated_at := now }] }
          (.success tx, db3)

/-- The store produced by the success branch of `createOfflineTransaction`
(same construction, factored out so the admission theorems can reason about
it; the `none` wallet arm is unreachable whenever admission succeeded). -/
def admitSuccessDB (p : CreateTxParams) (now : Int) (today : Nat)
    (freshTxId freshStatsId refId : String) (db : DB) : DB :=
  match findWallet p.senderWalletId db with
  | none => db
  | some walletState =>
    let todayStats := findStats p.senderWalletId today db
    let curCount := (todayStats.map (fun s => s.transaction_count)).getD 0
    let curOffline := (todayStats.map (fun s => s.offline_transaction_count)).getD 0
    let curTotal := (todayStats.map (fun s => s.total_amount_paise)).getD 0
    let tx := newOfflineTx p now freshTxId refId
    let db1 := { db with transactions := db.transactions ++ [tx] }
    let db2 := updateWalletRows p.senderWalletId (fun w =>
      { w with
        offline_balance_paise := walletState.offline_balance_paise - p.amountPaise
        pending_sync_count := walletState.pending_sync_count + 1
        sync_deadline := some (walletState.sync_deadline.getD (now + SYNC_DEADLINE_MS)) }) db1
    match todayStats with
    | some ts =>
      updateStatsRows ts.id (fun s =>
        { s with
          transaction_count := curCount + 1
          offline_transaction_count := curOffline + 1
          total_amount_paise := curTotal + p.amountPaise
          updated_at := now }) db2
    | none =>
      { db2 with dailyStats := db2.dailyStats ++
          [{ id := freshStatsId
             wallet_id := p.senderWalletId
             date := today
             transaction_count := 1
             offline_transaction_count := 1
             total_amount_paise := p.amountPaise
             updated_at := now }] }

/-- Insert into a list sorted by `le` (used to model index-order enumeration). -/
def insertSorted (le : LocalTransaction → LocalTransaction → Bool)
    (a : LocalTransaction) : List LocalTransaction → List LocalTransaction
  | [] => [a]
  | b :: l => if le a b then a :: b :: l else b :: insertSorted le a l

/-- Sort a list of transactions by `le` (structural insertion sort, so that
concrete instances reduce in the kernel). -/
def sortTxs (le : LocalTransaction → LocalTransaction → Bool) :
    List LocalTransaction → List LocalTransaction
  | [] => []
  | a :: l => insertSorted le a (sortTxs le l)

/-- Lexicographic code-point comparison of character lists. -/
def charsLe : List Char → List Char → Bool
  | [], _ => true
  | _ :: _, [] => false
  | a :: as, b :: bs =>
    if a.toNat < b.toNat then true
    else if b.toNat < a.toNat then false
    else charsLe as bs

/-- Lexicographic code-point order on strings (the order of IndexedDB
string keys). -/
def strLe (a b : String) : Bool := charsLe a.data b.data

/-- Primary-key order of the `transactions` store. -/
def idLe (a b : LocalTransaction) : Bool := strLe a.id b.id

/-- `getPendingTransactions` from `transaction-queue.ts`:
`db.transactions.where("needs_sync").equals(1).toArray()` enumerates the
needs-sync rows in index order — all index keys are equal, so primary-key
(`id`) order; with a `walletId` argument the same enumeration is then
filtered by `sender_wallet_id` in memory. -/
def getPendingTransactions (walletId : Option String) (db : DB) :
    List LocalTransaction :=
  let base := sortTxs idLe (db.transactions.filter (fun t => t.needs_sync))
  match walletId with
  | some wid => base.filter (fun t => t.sender_wallet_id == some wid)
  | none => base

/-- `markTransactionSynced` from `transaction-queue.ts`. The change object
always sets `synced_at`, `needs_sync := false`, `status := completed`,
`updated_at`; when `serverTransactionId` is provided the spread
`...(serverTransactionId && { id: serverTransactionId })` also rewrites the
primary key to the server id. The follow-up `db.transactions.get(id)` then
looks the row up by the ORIGINAL id, and only on a hit decrements the
wallet pending count (clamped at 0) and stamps `last_sync_at`. -/
def markTransactionSynced (now : Int) (id : String)
    (serverTransactionId : Option String) (db : DB) : Bool × DB :=
  let db1 := updateTxRows id (fun t =>
    { t with
      id := serverTransactionId.getD t.id
      synced_at := some now
      needs_sync := false
      status := .completed
      updated_at := now }) db
  match findTx id db1 with
  | some transaction =>
    match transaction.sender_wallet_id with
    | some wid =>
      match findWallet wid db1 with
      | some wallet =>
        (true, updateWalletRows wid (fun w =>
          { w with
            pending_sync_count := wallet.pending_sync_count - 1
            last_sync_at := some now }) db1)
      | none => (true, db1)
    | none => (true, db1)
  | none => (true, db1)

/-- `markTransactionFailed` from `transaction-queue.ts`: set the status to
failed and record the error code and message; nothing else is touched. -/
def markTransactionFailed (now : Int) (id : String)
    (errorCode errorMessage : String) (db : DB) : Bool × DB :=
  (true, updateTxRows id (fun t =>
    { t with
      status := .failed
      error_code := some errorCode
      error_message := some errorMessage
      updated_at := now }) db)

/-- The authoritative wallet row as fetched from the remote `wallets` table
(`supabase.from("wallets").select("*")...single()`); the server schema carries
the same columns as the local projection except the local-only
`cached_at` / `offline_balance_paise` fields. -/
structure ServerWallet where
  id : String
  user_id : String
  upi_id : String
  upi_provider : Option String
  balance_paise : Int
  max_balance_paise : Int
  max_transaction_paise : Int
  max_daily_transactions : Nat
  max_offline_transactions : Nat
  status : WalletStatus
  last_sync_at : Option Int
  pending_sync_count : Nat
  sync_deadline : Option Int
deriving DecidableEq, Repr

/-- The local row built by `syncWalletStateFromServer` from a fetched server
wallet: the spread of the server record plus `cached_at := now` and
`offline_balance_paise` initialised to the server balance
(`wallet-state.ts` lines 40-45). -/
def localWalletOfServer (w : ServerWallet) (now : Int) : LocalWalletState :=
  { id := w.id
    user_id := w.user_id
    upi_id := w.upi_id
    upi_provider := w.upi_provider
    balance_paise := w.balance_paise
    max_balance_paise := w.max_balance_paise
    max_transaction_paise := w.max_transaction_paise
    max_daily_transactions := w.max_daily_transactions
    max_offline_transactions := w.max_offline_transactions
    status := w.status
    last_sync_at := w.last_sync_at
    pending_sync_count := w.pending_sync_count
    sync_deadline := w.sync_deadline
    cached_at := now
    offline_balance_paise := w.balance_paise }

/-- `syncWalletStateFromServer` from `wallet-state.ts`: the remote fetch
result is passed in (`none` models a fetch error or missing wallet). On
success the local row is rebuilt wholesale from the server record and `put`
into the store; the returned wallet is that local row. -/
def syncWalletStateFromServer (now : Int) (fetched : Option ServerWallet)
    (db : DB) : Option LocalWalletState × DB :=
  match fetched with
  | none => (none, db)
  | some wallet =>
    let localWallet := localWalletOfServer wallet now
    (some localWallet, putWallet localWallet db)

/-- `updateOfflineBalance` from `wallet-state.ts`: compute the new balance
from the first row with the wallet id, refuse the write when it would be
negative. -/
def updateOfflineBalance (walletId : String) (amountPaise : Int)
    (deduct : Bool) (db : DB) : Bool × DB :=
  match findWallet walletId db with
  | none => (false, db)
  | some wallet =>
    let newBalance :=
      if deduct then wallet.offline_balance_paise - amountPaise
      else wallet.offline_balance_paise + amountPaise
    if newBalance < 0 then (false, db)
    else
      (true, updateWalletRows walletId (fun w =>
        { w with offline_balance_paise := newBalance }) db)

/-- `clearSyncDeadline` from `wallet-state.ts`: null the deadline and zero
the pending count. -/
def clearSyncDeadline (walletId : String) (db : DB) : Bool × DB :=
  (true, updateWalletRows walletId (fun w =>
    { w with sync_deadline := none, pending_sync_count := 0 }) db)

/-- `updateLastSyncTimestamp` from `wallet-state.ts`. -/
def updateLastSyncTimestamp (now : Int) (walletId : String) (db : DB) : Bool × DB :=
  (true, updateWalletRows walletId (fun w => { w with last_sync_at := some now }) db)

/-- The set of transactions `recalculateOfflineBalance` subtracts: rows of
the wallet that are offline-originated and not yet synced
(`.where("sender_wallet_id").equals(walletId).and(t => t.is_offline && !t.synced_at)`). -/
def pendingOfflineTxs (walletId : String) (db : DB) : List LocalTransaction :=
  db.transactions.filter (fun t =>
    t.sender_wallet_id == some walletId && t.is_offline && t.synced_at == none)

/-- Total pending amount summed by `recalculateOfflineBalance`. -/
def pendingDebitSum (walletId : String) (db : DB) : Int :=
  (pendingOfflineTxs walletId db).foldl (fun sum t => sum + t.amount_paise) 0

/-- `recalculateOfflineBalance` from `wallet-state.ts`: set
`offline_balance_paise := balance_paise - Σ(pending offline amounts)`. -/
def recalculateOfflineBalance (walletId : String) (db : DB) : Bool × DB :=
  match findWallet walletId db with
  | none => (false, db)
  | some wallet =>
    let offlineBalance := wallet.balance_paise - pendingDebitSum walletId db
    (true, updateWalletRows walletId (fun w =>
      { w with offline_balance_paise := offlineBalance }) db)

/-- `walletNeedsSync` from `wallet-state.ts`: true when the wallet has
pending unsynced transactions, or when a sync deadline is set and lies less
than one day ahead of `now` (which includes deadlines already passed). -/
def walletNeedsSync (now : Int) (walletId : String) (db : DB) : Bool :=
  match findWallet walletId db with
  | none => false
  | some wallet =>
    if wallet.pending_sync_count > 0 then true
    else
      match wallet.sync_deadline with
      | some deadline => decide (deadline - now < ONE_DAY_MS)
      | none => false

/-- `hasExceededSyncDeadline` from `wallet-state.ts`. -/
def hasExceededSyncDeadline (now : Int) (walletId : String) (db : DB) : Bool :=
  match findWallet walletId db with
  | none => false
  | some wallet =>
    match wallet.sync_deadline with
    | some deadline => decide (deadline < now)
    | none => false

/-- Return record of `getWalletSyncStatus`. Balances are reported in paise
here; the source divides by 100 for rupee display only. -/
structure WalletSyncStatus where
  needsSync : Bool
  exceededDeadline : Bool
  pendingCount : Nat
  hoursUntilDeadline : Option Int
  offlineBalancePaise : Int
  serverBalancePaise : Int
deriving DecidableEq, Repr

/-- `getWalletSyncStatus` from `wallet-state.ts`: the read-side status
derivation (`Math.floor` of the millisecond difference over an hour is
floor division). -/
def getWalletSyncStatus (now : Int) (walletId : String) (db : DB) :
    WalletSyncStatus :=
  match findWallet walletId db with
  | none =>
    { needsSync := false, exceededDeadline := false, pendingCount := 0
      hoursUntilDeadline := none, offlineBalancePaise := 0, serverBalancePaise := 0 }
  | some wallet =>
    { needsSync := walletNeedsSync now walletId db
      exceededDeadline := hasExceededSyncDeadline now walletId db
      pendingCount := wallet.pending_sync_count
      hoursUntilDeadline :=
        wallet.sync_deadline.map (fun d => Int.fdiv (d - now) (60 * 60 * 1000))
      offlineBalancePaise := wallet.offline_balance_paise
      serverBalancePaise := wallet.balance_paise }

/-- `syncWalletState` from `wallet-sync.ts`: re-base the local projection on
the fetched server wallet, stamp `last_sync_at`, and clear the sync deadline
when the freshly written projection reports zero pending transactions. -/
def syncWalletState (now : Int) (fetched : Option ServerWallet) (db : DB) :
    Bool × DB :=
  match syncWalletStateFromServer now fetched db with
  | (none, db1) => (false, db1)
  | (some wallet, db1) =>
    let db2 := (updateLastSyncTimestamp now wallet.id db1).2
    let db3 :=
      if wallet.pending_sync_count = 0 then (clearSyncDeadline wallet.id db2).2
      else db2
    (true, db3)

/-- Remote outcome of the Supabase insert performed by `syncTransaction`:
either the created server row id, or the error message of an explicit
rejection. -/
inductive RemoteSubmitResult
  | accepted (serverId : String)
  | rejected (message : String)
deriving DecidableEq, Repr

/-- `syncTransaction` from `transaction-sync.ts`: on an accepted insert the
local row is marked synced with the server id; on an explicit rejection the
function only returns the error — nothing in the local store is written. -/
def syncTransaction (now : Int) (transaction : LocalTransaction)
    (remote : RemoteSubmitResult) (db : DB) :
    (Bool × Option String × Option String) × DB :=
  match remote with
  | .rejected message => ((false, none, some message), db)
  | .accepted serverId =>
    let db1 := (markTransactionSynced now transaction.id (some serverId) db).2
    ((true, some serverId, none), db1)

/-- The balance-conservation invariant as the specification words it: every
row of the wallet carries `local_balance = server_balance - Σ(amounts of
still-unsynced local offline transactions)`. Stated over the stored
projection using the same pending set that `recalculateOfflineBalance`
subtracts. -/
def balanceInvariantHolds (walletId : String) (db : DB) : Bool :=
  db.walletState.all (fun w =>
    w.id != walletId ||
      w.offline_balance_paise == w.balance_paise - pendingDebitSum walletId db)

/-- Sample authoritative wallet used by the concrete scenarios: the basic
offline-payment wallet of the specification (balance 500000 paise, NPCI
limits, active, nothing pending). -/
def exServerWallet : ServerWallet :=
  { id := "w1"
    user_id := "u1"
    upi_id := "user@upi"
    upi_provider := none
    balance_paise := 500000
    max_balance_paise := 500000
    max_transaction_paise := 100000
    max_daily_transactions := 20
    max_offline_transactions := 5
    status := .active
    last_sync_at := none
    pending_sync_count := 0
    sync_deadline := none }

/-- Empty store. -/
def exEmptyDB : DB := { transactions := [], walletState := [], dailyStats := [] }

/-- Admission parameters for a payment of the given amount from wallet w1. -/
def exParams (amount : Int) : CreateTxParams :=
  { senderWalletId := "w1"
    receiverWalletId := some "w2"
    merchantId := none
    amountPaise := amount
    description := none
    transactionType := .payment
    paymentMethod := .qr }

/-- Store after an initial clean wallet sync at time 0. -/
def exBaseDB : DB := (syncWalletState 0 (some exServerWallet) exEmptyDB).2

/-- First admission: payment of 10000 paise at time 100 on day 0. -/
def exAdmit1 : CreateTxResult × DB :=
  createOfflineTransaction (exParams 10000) 100 0 "txA" "stA" "REF1" exBaseDB

/-- Store after a second wallet sync at time 200 while transaction txA is
still unsynced (its remote submission did not land, so the server wallet is
unchanged). -/
def exAfterResync : DB := (syncWalletState 200 (some exServerWallet) exAdmit1.2).2

/-- Store after txA is marked synced (no server id supplied): the pending
count drains back to 0, the sync deadline is left in place. -/
def exDrained : DB := (markTransactionSynced 150 "txA" none exAdmit1.2).2

/-- Second admission at time 1000, performed while the pending count is 0
but the stale sync deadline from the first admission is still set. -/
def exAdmit2 : CreateTxResult × DB :=
  createOfflineTransaction (exParams 5000) 1000 0 "txB" "stB" "REF2" exDrained


/-- Wallet whose own per-transaction cap (50000 paise) is stricter than the
global NPCI constant (100000 paise). -/
def exStrictWallet : LocalWalletState :=
  { localWalletOfServer exServerWallet 0 with max_transaction_paise := 50000 }

/-- Store holding only the strict-cap wallet. -/
def exStrictDB : DB :=
  { transactions := [], walletState := [exStrictWallet], dailyStats := [] }

/-- Admission of 60000 paise — above the wallet cap of 50000, below the
global NPCI constant. -/
def exStrictAdmit : CreateTxResult × DB :=
  createOfflineTransaction (exParams 60000) 100 0 "txC" "stC" "REF3" exStrictDB


/-- Rejection scenario of the specification: admission of 150000 paise
(over the 100000-paise NPCI cap) against the strict-cap store. -/
def exLimitReject : CreateTxResult × DB :=
  createOfflineTransaction (exParams 150000) 100 0 "txD" "stD" "REF4" exStrictDB

/-- The wallet w1 row as stored in `exDrained` (balance 490000 offline,
nothing pending, stale deadline from the first admission still set). -/
def exDrainedWallet : LocalWalletState :=
  { localWalletOfServer exServerWallet 0 with
    offline_balance_paise := 490000
    pending_sync_count := 0
    sync_deadline := some 345600100
    last_sync_at := some 150 }

/-- A pending local transaction of 10000 paise with local id t1. -/
def exTx1 : LocalTransaction := newOfflineTx (exParams 10000) 0 "t1" "REFt1"

/-- Wallet projection matching exTx1 being the only pending debit. -/
def exWalletPending1 : LocalWalletState :=
  { localWalletOfServer exServerWallet 0 with
    offline_balance_paise := 490000
    pending_sync_count := 1
    sync_deadline := some 345600000 }

/-- Store with one pending transaction and its wallet projection. -/
def exPendingDB : DB :=
  { transactions := [exTx1], walletState := [exWalletPending1], dailyStats := [] }

/-- Marking t1 synced with the server-assigned id srv9. -/
def exMarkWithServerId : Bool × DB := markTransactionSynced 5 "t1" (some "srv9") exPendingDB


/-- Outcome write for an explicit remote rejection of t1. -/
def exRejectedSync : (Bool × Option String × Option String) × DB :=
  syncTransaction 5 exTx1 (.rejected "wallet frozen remotely") exPendingDB

/-- `markTransactionFailed` applied to t1 directly. -/
def exMarkFailed : Bool × DB :=
  markTransactionFailed 6 "t1" "REMOTE_REJECTED" "wallet frozen remotely" exPendingDB


/-- Transaction with primary key b admitted first (created at time 1). -/
def exTxIdB : LocalTransaction :=
  { newOfflineTx (exParams 1000) 1 "b" "REFb" with created_at := 1 }

/-- Transaction with primary key a admitted second (created at time 2). -/
def exTxIdA : LocalTransaction :=
  { newOfflineTx (exParams 2000) 2 "a" "REFa" with created_at := 2 }

/-- Store whose insertion order is [b, a] but whose primary-key order is
[a, b]. -/
def exFifoDB : DB :=
  { transactions := [exTxIdB, exTxIdA]
    walletState := [localWalletOfServer exServerWallet 0]
    dailyStats := [] }


/-- Wallet with nothing pending but a sync deadline 50ms away. -/
def exDeadlineSoonWallet : LocalWalletState :=
  { localWalletOfServer exServerWallet 0 with sync_deadline := some 50 }

/-- Store holding only that wallet. -/
def exDeadlineSoonDB : DB :=
  { transactions := [], walletState := [exDeadlineSoonWallet], dailyStats := [] }


/-! Helper lemmas about keyed list updates and the insertion sort. -/

theorem find?_map_keyed {α : Type} (p q : α → Bool) (f : α → α) (l : List α)
    (hp : ∀ a, p (f a) = p a) :
    (l.map (fun a => if q a then f a else a)).find? p =
      (l.find? p).map (fun a => if q a then f a else a) := by
  induction l with
  | nil => rfl
  | cons hd tl ih =>
    by_cases hq : q hd
    · by_cases hphd : p hd
      · simp [List.find?, hq, hp, hphd]
      · simp [List.find?, hq, hp, hphd, ih]
    · by_cases hphd : p hd
      · simp [List.find?, hq, hphd]
      · simp [List.find?, hq, hphd, ih]

theorem findWallet_update_self (walletId : String)
    (f : LocalWalletState → LocalWalletState) (db : DB)
    (hf : ∀ w, (f w).id = w.id) :
    findWallet walletId (updateWalletRows walletId f db) =
      (findWallet walletId db).map f := by
  unfold findWallet updateWalletRows
  rw [find?_map_keyed (fun w => w.id == walletId) (fun w => w.id == walletId) f
    db.walletState (fun a => by simp [hf])]
  cases h : db.walletState.find? (fun w => w.id == walletId) with
  | none => rfl
  | some w =>
    have hid : (w.id == walletId) = true :=
      @List.find?_some _ (fun w => w.id == walletId) w db.walletState h
    simp only [Option.map]
    rw [if_pos hid]

theorem findStats_update_keyed (walletId : String) (today : Nat) (sid : String)
    (g : LocalDailyStats → LocalDailyStats) (db : DB)
    (hg : ∀ s, (g s).wallet_id = s.wallet_id) (hg2 : ∀ s, (g s).date = s.date) :
    findStats walletId today (updateStatsRows sid g db) =
      (findStats walletId today db).map (fun s => if s.id == sid then g s else s) := by
  unfold findStats updateStatsRows
  exact find?_map_keyed _ _ g db.dailyStats (fun a => by simp [hg, hg2])

theorem insertSorted_perm (le : LocalTransaction → LocalTransaction → Bool)
    (a : LocalTransaction) (l : List LocalTransaction) :
    (insertSorted le a l).Perm (a :: l) := by
  induction l with
  | nil => simp [insertSorted]
  | cons b l ih =>
    unfold insertSorted
    by_cases h : le a b
    · simp [h]
    · simp only [h, if_neg]
      exact (ih.cons b).trans (List.Perm.swap a b l)

theorem sortTxs_perm (le : LocalTransaction → LocalTransaction → Bool)
    (l : List LocalTransaction) : (sortTxs le l).Perm l := by
  induction l with
  | nil => exact List.Perm.refl _
  | cons a l ih => exact (insertSorted_perm le a _).trans (ih.cons a)

theorem pairwise_insertSorted (le : LocalTransaction → LocalTransaction → Bool)
    (htot : ∀ a b, le a b = true ∨ le b a = true)
    (htrans : ∀ a b c, le a b = true → le b c = true → le a c = true)
    (a : LocalTransaction) (l : List LocalTransaction)
    (h : l.Pairwise (fun x y => le x y = true)) :
    (insertSorted le a l).Pairwise (fun x y => le x y = true) := by
  induction l with
  | nil => simp [insertSorted]
  | cons b l ih =>
    rw [List.pairwise_cons] at h
    obtain ⟨hb, hl⟩ := h
    unfold insertSorted
    by_cases hab : le a b
    · simp only [hab, if_pos]
      rw [List.pairwise_cons]
      refine ⟨?_, ?_⟩
      · intro x hx
        rcases List.mem_cons.mp hx with hxb | hxl
        · exact hxb ▸ hab
        · exact htrans a b x hab (hb x hxl)
      · rw [List.pairwise_cons]
        exact ⟨hb, hl⟩
    · simp only [hab, if_neg, Bool.false_eq_true, not_false_iff]
      rw [List.pairwise_cons]
      refine ⟨?_, ih hl⟩
      intro x hx
      have hmem := (insertSorted_perm le a l).mem_iff.mp hx
      rcases List.mem_cons.mp hmem with hxa | hxl
      · rw [hxa]
        rcases htot a b with h1 | h1
        · exact absurd h1 (by simpa using hab)
        · exact h1
      · exact hb x hxl

theorem pairwise_sortTxs (le : LocalTransaction → LocalTransaction → Bool)
    (htot : ∀ a b, le a b = true ∨ le b a = true)
    (htrans : ∀ a b c, le a b = true → le b c = true → le a c = true)
    (l : List LocalTransaction) :
    (sortTxs le l).Pairwise (fun x y => le x y = true) := by
  induction l with
  | nil => simp [sortTxs]
  | cons a l ih => exact pairwise_insertSorted le htot htrans a _ ih

theorem charsLe_total (a b : List Char) : charsLe a b = true ∨ charsLe b a = true := by
  induction a generalizing b with
  | nil => left; rfl
  | cons x xs ih =>
    cases b with
    | nil => right; rfl
    | cons y ys =>
      unfold charsLe
      by_cases h1 : x.toNat < y.toNat
      · left; simp [h1]
      · by_cases h2 : y.toNat < x.toNat
        · right; simp [h1, h2]
        · rcases ih ys with h | h
          · left; simp [h1, h2, h]
          · right; simp [h1, h2, h]

theorem charsLe_trans (a b c : List Char) (h1 : charsLe a b = true)
    (h2 : charsLe b c = true) : charsLe a c = true := by
  induction a generalizing b c with
  | nil => rfl
  | cons x xs ih =>
    cases b with
    | nil => simp [charsLe] at h1
    | cons y ys =>
      cases c with
      | nil => simp [charsLe] at h2
      | cons z zs =>
        unfold charsLe at h1 h2 ⊢
        by_cases hxy : x.toNat < y.toNat
        · by_cases hyz : y.toNat < z.toNat
          · simp [show x.toNat < z.toNat by omega]
          · by_cases hzy : z.toNat < y.toNat
            · simp [hyz, hzy] at h2
            · simp [show x.toNat < z.toNat by omega]
        · by_cases hyx : y.toNat < x.toNat
          · simp [hxy, hyx] at h1
          · by_cases hyz : y.toNat < z.toNat
            · simp [show x.toNat < z.toNat by omega]
            · by_cases hzy : z.toNat < y.toNat
              · simp [hyz, hzy] at h2
              · have hxz : ¬ x.toNat < z.toNat := by omega
                have hzx : ¬ z.toNat < x.toNat := by omega
                simp only [hxy, hyx, if_neg, if_false] at h1
                simp only [hyz, hzy, if_neg, if_false] at h2
                simp only [hxz, hzx, if_neg, if_false]
                exact ih ys zs h1 h2

theorem idLe_total (a b : LocalTransaction) : idLe a b = true ∨ idLe b a = true :=
  charsLe_total a.id.data b.id.data

theorem idLe_trans (a b c : LocalTransaction) (h1 : idLe a b = true)
    (h2 : idLe b c = true) : idLe a c = true :=
  charsLe_trans a.id.data b.id.data c.id.data h1 h2

/-! Claim theorems. -/

/-- Claim C10: `updateOfflineBalance` refuses any write that would drive the
offline balance negative — a deduct below zero returns false with the store
untouched, and every wallet row that is non-negative before a call is
non-negative after it. -/
theorem updateOfflineBalance_nonnegative_guard (walletId : String)
    (amountPaise : Int) (db : DB) :
    (∀ w, findWallet walletId db = some w →
      w.offline_balance_paise - amountPaise < 0 →
      updateOfflineBalance walletId amountPaise true db = (false, db)) ∧
    ((∀ w ∈ db.walletState, 0 ≤ w.offline_balance_paise) →
      ∀ deduct : Bool,
        ∀ w2 ∈ (updateOfflineBalance walletId amountPaise deduct db).2.walletState,
          0 ≤ w2.offline_balance_paise) := by
  constructor
  · intro w hw hneg
    unfold updateOfflineBalance
    rw [hw]
    simp [hneg]
  · intro hpos deduct w2 hw2
    unfold updateOfflineBalance at hw2
    cases hfw : findWallet walletId db with
    | none =>
      rw [hfw] at hw2
      exact hpos w2 hw2
    | some w =>
      rw [hfw] at hw2
      dsimp only at hw2
      by_cases hneg : (if deduct then w.offline_balance_paise - amountPaise
          else w.offline_balance_paise + amountPaise) < 0
      · rw [if_pos hneg] at hw2
        exact hpos w2 hw2
      · rw [if_neg hneg] at hw2
        simp only [updateWalletRows] at hw2
        rcases List.mem_map.mp hw2 with ⟨x, hx, hfx⟩
        by_cases hid : x.id == walletId
        · rw [if_pos hid] at hfx
          rw [← hfx]
          exact le_of_not_lt hneg
        · rw [if_neg hid] at hfx
          rw [← hfx]
          exact hpos x hx

/-- Witness for C10 at a concrete over-deduction: 500000 paise cannot be
deducted from wallet w1 holding 490000 offline. -/
theorem updateOfflineBalance_nonnegative_guard_witness :
    updateOfflineBalance "w1" 500000 true exPendingDB = (false, exPendingDB) :=
  (updateOfflineBalance_nonnegative_guard "w1" 500000 exPendingDB).1
    exWalletPending1 (by decide) (by decide)

/-- Claim C9 (amended): the stored-state characterisation of the derived
needs-sync flag — true iff the wallet has pending unsynced transactions OR a
sync deadline less than one day away from now (including already-passed
deadlines); the status monitor reports exactly this flag. -/
theorem walletNeedsSync_characterisation (now : Int) (walletId : String)
    (db : DB) (w : LocalWalletState) (h : findWallet walletId db = some w) :
    (walletNeedsSync now walletId db = true ↔
      (0 < w.pending_sync_count ∨
        ∃ d, w.sync_deadline = some d ∧ d - now < ONE_DAY_MS)) ∧
    (getWalletSyncStatus now walletId db).needsSync =
      walletNeedsSync now walletId db := by
  constructor
  · unfold walletNeedsSync
    rw [h]
    by_cases hp : w.pending_sync_count > 0
    · simp [hp]
    · cases hd : w.sync_deadline with
      | none => simp [hp, hd]
      | some d => simp [hp, hd]
  · unfold getWalletSyncStatus
    rw [h]

/-- Witness for C9 at the concrete near-deadline wallet. -/
theorem walletNeedsSync_characterisation_witness :
    (walletNeedsSync 100 "w1" exDeadlineSoonDB = true ↔
      (0 < exDeadlineSoonWallet.pending_sync_count ∨
        ∃ d, exDeadlineSoonWallet.sync_deadline = some d ∧ d - 100 < ONE_DAY_MS)) ∧
    (getWalletSyncStatus 100 "w1" exDeadlineSoonDB).needsSync =
      walletNeedsSync 100 "w1" exDeadlineSoonDB :=
  walletNeedsSync_characterisation 100 "w1" exDeadlineSoonDB exDeadlineSoonWallet
    (by decide)

/-- Counterexample to C9 as stated: wallet w1 has zero pending transactions,
yet the monitor reports needs-sync (its stale deadline is less than a day
away), so needs_sync is not equivalent to pending_count > 0. -/
theorem needs_sync_counterexample :
    walletNeedsSync 100 "w1" exDeadlineSoonDB = true ∧
    (getWalletSyncStatus 100 "w1" exDeadlineSoonDB).pendingCount = 0 := by decide

/-- Claim C7 (amended): an explicit remote rejection produces no local
outcome write at all — `syncTransaction` returns the error with the store
exactly unchanged — and the (uncalled) `markTransactionFailed` helper only
sets the failed status and error fields on the transaction row, leaving
wallet projections and daily counters untouched. -/
theorem remote_rejection_writes_nothing (now : Int)
    (transaction : LocalTransaction) (message : String) (db : DB) :
    syncTransaction now transaction (.rejected message) db =
      ((false, none, some message), db) ∧
    ∀ id code emsg,
      ((markTransactionFailed now id code emsg db).2.transactions =
        db.transactions.map (fun t => if t.id == id then
          { t with status := .failed, error_code := some code,
                   error_message := some emsg, updated_at := now } else t)) ∧
      (markTransactionFailed now id code emsg db).2.walletState = db.walletState ∧
      (markTransactionFailed now id code emsg db).2.dailyStats = db.dailyStats :=
  ⟨rfl, fun _ _ _ => ⟨rfl, rfl, rfl⟩⟩

/-- Counterexample to C7 as stated: rejecting pending transaction t1
(amount 10000, wallet pending count 1, offline balance 490000) leaves the
store identical — t1 stays pending, and even a direct `markTransactionFailed`
neither decrements the pending count nor credits the 10000 paise back. -/
theorem remote_rejection_counterexample :
    exRejectedSync.2 = exPendingDB ∧
    (findTx "t1" exRejectedSync.2).map (fun t => t.status) = some .pending ∧
    (findTx "t1" exMarkFailed.2).map (fun t => t.status) = some .failed ∧
    (findWallet "w1" exMarkFailed.2).map
      (fun w => (w.pending_sync_count, w.offline_balance_paise)) =
      some (1, 490000) := by decide

/-- Claim C6 (amended): `markTransactionSynced` stores no separate
correlation field — when a server id is supplied, the update rewrites the
transaction row's primary key to the server id (all fields other than id,
synced_at, needs_sync, status and updated_at are untouched), and when the
server id differs from the local id the follow-up lookup by the stale local
id misses, so the wallet rows are left entirely unchanged. -/
theorem markTransactionSynced_rewrites_id (now : Int) (id : String)
    (serverTransactionId : Option String) (db : DB) :
    ((markTransactionSynced now id serverTransactionId db).2.transactions =
      db.transactions.map (fun t => if t.id == id then
        { t with id := serverTransactionId.getD t.id, synced_at := some now,
                 needs_sync := false, status := .completed, updated_at := now }
        else t)) ∧
    (∀ s, serverTransactionId = some s → s ≠ id →
      (markTransactionSynced now id serverTransactionId db).2.walletState =
        db.walletState) := by
  constructor
  · unfold markTransactionSynced
    dsimp only
    split
    · split
      · split
        · simp [updateWalletRows, updateTxRows]
        · simp [updateTxRows]
      · simp [updateTxRows]
    · simp [updateTxRows]
  · intro s hs hneq
    subst hs
    unfold markTransactionSynced
    have hnone : findTx id (updateTxRows id (fun t =>
        { t with id := (Option.some s).getD t.id, synced_at := some now,
                 needs_sync := false, status := .completed, updated_at := now }) db) =
        none := by
      unfold findTx updateTxRows
      rw [List.find?_eq_none]
      intro x hx
      rcases List.mem_map.mp hx with ⟨t, ht, hft⟩
      by_cases hid : t.id == id
      · rw [if_pos hid] at hft
        rw [← hft]
        simpa using hneq
      · rw [if_neg hid] at hft
        rw [← hft]
        simpa using hid
    dsimp only
    rw [hnone]
    simp [updateTxRows]

/-- Witness for C6: with server id srv9 differing from local id t1, the
wallet rows of the concrete pending store are untouched. -/
theorem markTransactionSynced_rewrites_id_witness :
    (markTransactionSynced 5 "t1" (some "srv9") exPendingDB).2.walletState =
      exPendingDB.walletState :=
  (markTransactionSynced_rewrites_id 5 "t1" (some "srv9") exPendingDB).2
    "srv9" rfl (by decide)

/-- Counterexample to C6 as stated: marking t1 synced with server id srv9
replaces the locally generated id t1 by srv9 in the stored row. -/
theorem local_id_stability_counterexample :
    exPendingDB.transactions.map (fun t => t.id) = ["t1"] ∧
    exMarkWithServerId.2.transactions.map (fun t => t.id) = ["srv9"] := by decide

/-- Claim C8 (amended): the reconciler enumeration returns exactly the
needs-sync transactions (filtered to the requested wallet), but in
primary-key (id) order — the order of the underlying index scan — not by
created_offline_at. -/
theorem pending_enumeration_sorted_by_id (walletId : Option String) (db : DB) :
    (getPendingTransactions walletId db).Pairwise (fun a b => idLe a b = true) ∧
    (getPendingTransactions walletId db).Perm
      (db.transactions.filter (fun t => t.needs_sync &&
        match walletId with
        | some wid => t.sender_wallet_id == some wid
        | none => true)) := by
  constructor
  · cases walletId with
    | none => exact pairwise_sortTxs idLe idLe_total idLe_trans _
    | some wid =>
      exact List.Pairwise.sublist (List.filter_sublist _)
        (pairwise_sortTxs idLe idLe_total idLe_trans _)
  · cases walletId with
    | none =>
      have h1 := sortTxs_perm idLe (db.transactions.filter (fun t => t.needs_sync))
      unfold getPendingTransactions
      dsimp only
      simpa using h1
    | some wid =>
      have h1 := List.Perm.filter (fun t => t.sender_wallet_id == some wid)
        (sortTxs_perm idLe (db.transactions.filter (fun t => t.needs_sync)))
      rw [List.filter_filter] at h1
      have h2 : db.transactions.filter
          (fun t => (t.sender_wallet_id == some wid) && t.needs_sync) =
          db.transactions.filter
            (fun t => t.needs_sync && (t.sender_wallet_id == some wid)) := by
        apply List.filter_congr
        intro t ht
        exact Bool.and_comm _ _
      rw [h2] at h1
      unfold getPendingTransactions
      dsimp only
      exact h1

/-- Counterexample to C8 as stated: two needs-sync transactions of wallet
w1, admitted in the order [id b at time 1, id a at time 2], are enumerated
as [a, b] — descending, not ascending, in created_offline_at. -/
theorem fifo_order_counterexample :
    (getPendingTransactions (some "w1") exFifoDB).map
      (fun t => t.created_offline_at) = [some 2, some 1] ∧
    ¬ ((2 : Int) ≤ 1) := by decide

/-- Claim C1 (amended): the dormant helper `recalculateOfflineBalance` does
re-derive local balance as server balance minus the pending offline debit
sum, but the re-basing actually performed by a sync pass
(`syncWalletStateFromServer`) sets the offline balance to the fetched server
balance alone, for every stored row of that wallet. -/
theorem rebase_vs_recalculate (walletId : String) (db : DB)
    (w : LocalWalletState) (h : findWallet walletId db = some w) :
    (∀ w2 ∈ ((recalculateOfflineBalance walletId db).2).walletState,
      w2.id = walletId →
        w2.offline_balance_paise = w.balance_paise - pendingDebitSum walletId db) ∧
    (∀ (now : Int) (sw : ServerWallet) (db0 : DB),
      ∀ w3 ∈ ((syncWalletStateFromServer now (some sw) db0).2).walletState,
        w3.id = sw.id → w3.offline_balance_paise = sw.balance_paise) := by
  constructor
  · unfold recalculateOfflineBalance
    rw [h]
    dsimp only
    intro w2 hw2 hid
    simp only [updateWalletRows] at hw2
    rcases List.mem_map.mp hw2 with ⟨x, hx, hfx⟩
    by_cases hxid : x.id == walletId
    · rw [if_pos hxid] at hfx
      rw [← hfx]
    · rw [if_neg hxid] at hfx
      rw [← hfx] at hid
      exact absurd hid (by simpa using hxid)
  · intro now sw db0 w3 hw3 hid
    unfold syncWalletStateFromServer putWallet at hw3
    dsimp only at hw3
    split at hw3
    · rcases List.mem_map.mp hw3 with ⟨x, hx, hfx⟩
      by_cases hxid : x.id == (localWalletOfServer sw now).id
      · rw [if_pos hxid] at hfx
        rw [← hfx]
        rfl
      · rw [if_neg hxid] at hfx
        rw [← hfx] at hid
        exact absurd hid (by simpa [localWalletOfServer] using hxid)
    · rcases List.mem_append.mp hw3 with hleft | hright
      · rename_i hany
        rw [List.any_eq_true] at hany
        exact absurd ⟨w3, hleft, by simpa [localWalletOfServer] using hid⟩ hany
      · rcases List.mem_singleton.mp hright with rfl
        rfl

/-- Witness for C1: the amended statement instantiated at the concrete
pending store (wallet w1, one unsynced offline debit of 10000). -/
theorem rebase_vs_recalculate_witness :
    (∀ w2 ∈ ((recalculateOfflineBalance "w1" exPendingDB).2).walletState,
      w2.id = "w1" →
        w2.offline_balance_paise =
          exWalletPending1.balance_paise - pendingDebitSum "w1" exPendingDB) ∧
    (∀ (now : Int) (sw : ServerWallet) (db0 : DB),
      ∀ w3 ∈ ((syncWalletStateFromServer now (some sw) db0).2).walletState,
        w3.id = sw.id → w3.offline_balance_paise = sw.balance_paise) :=
  rebase_vs_recalculate "w1" exPendingDB exWalletPending1 (by decide)

/-- Counterexample to C1 as stated: starting from a cleanly synced wallet,
one admission keeps the invariant, but the following sync pass (performed
while the admitted transaction is still unsynced) re-bases the offline
balance to the server balance alone and breaks it. -/
theorem balance_conservation_counterexample :
    exAdmit1.1.isSuccess = true ∧
    balanceInvariantHolds "w1" exAdmit1.2 = true ∧
    balanceInvariantHolds "w1" exAfterResync = false := by decide

/-! Structural lemmas about `createOfflineTransaction`. -/

theorem create_eq_policy (p : CreateTxParams) (now : Int) (today : Nat)
    (txId stId refId : String) (db : DB) :
    createOfflineTransaction p now today txId stId refId db =
      match admissionPolicyError p now today db with
      | some e => (.failure e, db)
      | none =>
        if db.transactions.any (fun t => t.id == txId) then
          (.failure msgStorageFailure, db)
        else if (findStats p.senderWalletId today db == none) &&
            db.dailyStats.any (fun s => s.id == stId) then
          (.failure msgStorageFailure, db)
        else (.success (newOfflineTx p now txId refId),
          admitSuccessDB p now today txId stId refId db) := by
  by_cases h1 : p.amountPaise ≤ 0
  · simp [createOfflineTransaction, admissionPolicyError, h1]
  · by_cases h2 : NPCI_MAX_TRANSACTION_AMOUNT < p.amountPaise
    · simp [createOfflineTransaction, admissionPolicyError, h1, h2]
    · cases hfw : findWallet p.senderWalletId db with
      | none => simp [createOfflineTransaction, admissionPolicyError, h1, h2, hfw]
      | some w =>
        by_cases h3 : w.status ≠ WalletStatus.active
        · simp [createOfflineTransaction, admissionPolicyError, h1, h2, hfw, h3]
        · by_cases h4 : w.offline_balance_paise < p.amountPaise
          · simp [createOfflineTransaction, admissionPolicyError, h1, h2, hfw, h3, h4]
          · by_cases h5 : w.max_daily_transactions ≤
                ((findStats p.senderWalletId today db).map
                  (fun s => s.transaction_count)).getD 0
            · simp [createOfflineTransaction, admissionPolicyError, h1, h2, hfw, h3, h4, h5]
            · by_cases h6 : w.max_offline_transactions ≤
                  ((findStats p.senderWalletId today db).map
                    (fun s => s.offline_transaction_count)).getD 0
              · simp [createOfflineTransaction, admissionPolicyError,
                  h1, h2, hfw, h3, h4, h5, h6]
              · cases hdl : w.sync_deadline with
                | some d =>
                  by_cases h7 : d < now
                  · simp [createOfflineTransaction, admissionPolicyError,
                      h1, h2, hfw, h3, h4, h5, h6, hdl, h7]
                  · simp [createOfflineTransaction, admissionPolicyError, admitSuccessDB,
                      h1, h2, hfw, h3, h4, h5, h6, hdl, h7]
                | none =>
                  simp [createOfflineTransaction, admissionPolicyError, admitSuccessDB,
                    h1, h2, hfw, h3, h4, h5, h6, hdl]

theorem findWallet_stats_invariant (wid : String) (sid : String)
    (g : LocalDailyStats → LocalDailyStats) (db : DB) :
    findWallet wid (updateStatsRows sid g db) = findWallet wid db := rfl

theorem findWallet_txs_invariant (wid : String) (db : DB)
    (l : List LocalTransaction) :
    findWallet wid { db with transactions := l } = findWallet wid db := rfl

theorem findWallet_daily_invariant (wid : String) (db : DB)
    (l : List LocalDailyStats) :
    findWallet wid { db with dailyStats := l } = findWallet wid db := rfl

theorem findStats_wallet_invariant (wid : String) (today : Nat) (wkey : String)
    (f : LocalWalletState → LocalWalletState) (db : DB) :
    findStats wid today (updateWalletRows wkey f db) = findStats wid today db := rfl

theorem findStats_txs_invariant (wid : String) (today : Nat) (db : DB)
    (l : List LocalTransaction) :
    findStats wid today { db with transactions := l } = findStats wid today db := rfl

theorem create_failure_preserves (p : CreateTxParams) (now : Int) (today : Nat)
    (txId stId refId : String) (db : DB) (e : String) (db2 : DB)
    (h : createOfflineTransaction p now today txId stId refId db = (.failure e, db2)) :
    db2 = db := by
  rw [create_eq_policy] at h
  cases hp : admissionPolicyError p now today db with
  | some e2 =>
    rw [hp] at h
    dsimp only at h
    injection h with h1 h2
    exact h2.symm
  | none =>
    rw [hp] at h
    dsimp only at h
    by_cases g1 : db.transactions.any (fun t => t.id == txId)
    · rw [if_pos g1] at h
      injection h with h1 h2
      exact h2.symm
    · rw [if_neg g1] at h
      by_cases g2 : (findStats p.senderWalletId today db == none) &&
          db.dailyStats.any (fun s => s.id == stId)
      · rw [if_pos g2] at h
        injection h with h1 h2
        exact h2.symm
      · rw [if_neg g2] at h
        injection h with h1 h2
        exact absurd h1 (by simp)

theorem create_of_policy_some (p : CreateTxParams) (now : Int) (today : Nat)
    (txId stId refId : String) (db : DB) (e : String)
    (hp : admissionPolicyError p now today db = some e) :
    createOfflineTransaction p now today txId stId refId db = (.failure e, db) := by
  rw [create_eq_policy, hp]

theorem create_success_spec (p : CreateTxParams) (now : Int) (today : Nat)
    (txId stId refId : String) (db : DB) (tx : LocalTransaction) (db2 : DB)
    (h : createOfflineTransaction p now today txId stId refId db = (.success tx, db2)) :
    tx = newOfflineTx p now txId refId ∧
    db2 = admitSuccessDB p now today txId stId refId db ∧
    admissionPolicyError p now today db = none := by
  rw [create_eq_policy] at h
  cases hp : admissionPolicyError p now today db with
  | some e2 =>
    rw [hp] at h
    dsimp only at h
    injection h with h1 h2
    exact absurd h1 (by simp)
  | none =>
    rw [hp] at h
    dsimp only at h
    by_cases g1 : db.transactions.any (fun t => t.id == txId)
    · rw [if_pos g1] at h
      injection h with h1 h2
      exact absurd h1 (by simp)
    · rw [if_neg g1] at h
      by_cases g2 : (findStats p.senderWalletId today db == none) &&
          db.dailyStats.any (fun s => s.id == stId)
      · rw [if_pos g2] at h
        injection h with h1 h2
        exact absurd h1 (by simp)
      · rw [if_neg g2] at h
        injection h with h1 h2
        exact ⟨(CreateTxResult.success.inj h1).symm, h2.symm, rfl⟩

theorem admitSuccessDB_transactions (p : CreateTxParams) (now : Int) (today : Nat)
    (txId stId refId : String) (db : DB) (w : LocalWalletState)
    (hw : findWallet p.senderWalletId db = some w) :
    (admitSuccessDB p now today txId stId refId db).transactions =
      db.transactions ++ [newOfflineTx p now txId refId] := by
  unfold admitSuccessDB
  rw [hw]
  dsimp only
  cases hst : findStats p.senderWalletId today db <;>
    simp [updateStatsRows, updateWalletRows]

theorem admitSuccessDB_wallet (p : CreateTxParams) (now : Int) (today : Nat)
    (txId stId refId : String) (db : DB) (w : LocalWalletState)
    (hw : findWallet p.senderWalletId db = some w) :
    findWallet p.senderWalletId (admitSuccessDB p now today txId stId refId db) =
      some { w with
        offline_balance_paise := w.offline_balance_paise - p.amountPaise
        pending_sync_count := w.pending_sync_count + 1
        sync_deadline := some (w.sync_deadline.getD (now + SYNC_DEADLINE_MS)) } := by
  unfold admitSuccessDB
  rw [hw]
  dsimp only
  have hself := findWallet_update_self p.senderWalletId (fun x =>
      { x with
        offline_balance_paise := w.offline_balance_paise - p.amountPaise
        pending_sync_count := w.pending_sync_count + 1
        sync_deadline := some (w.sync_deadline.getD (now + SYNC_DEADLINE_MS)) })
    { db with transactions := db.transactions ++ [newOfflineTx p now txId refId] }
    (fun x => rfl)
  cases hst : findStats p.senderWalletId today db with
  | some ts =>
    rw [findWallet_stats_invariant, hself, findWallet_txs_invariant, hw]
    rfl
  | none =>
    rw [findWallet_daily_invariant, hself, findWallet_txs_invariant, hw]
    rfl

theorem admitSuccessDB_stats (p : CreateTxParams) (now : Int) (today : Nat)
    (txId stId refId : String) (db : DB) (w : LocalWalletState)
    (hw : findWallet p.senderWalletId db = some w) :
    ∃ s, findStats p.senderWalletId today
        (admitSuccessDB p now today txId stId refId db) = some s ∧
      s.transaction_count =
        ((findStats p.senderWalletId today db).map
          (fun x => x.transaction_count)).getD 0 + 1 ∧
      s.offline_transaction_count =
        ((findStats p.senderWalletId today db).map
          (fun x => x.offline_transaction_count)).getD 0 + 1 ∧
      s.total_amount_paise =
        ((findStats p.senderWalletId today db).map
          (fun x => x.total_amount_paise)).getD 0 + p.amountPaise := by
  unfold admitSuccessDB
  rw [hw]
  dsimp only
  cases hst : findStats p.senderWalletId today db with
  | some ts =>
    have hkey := findStats_update_keyed p.senderWalletId today ts.id (fun s =>
        { s with
          transaction_count :=
            ((findStats p.senderWalletId today db).map
              (fun x => x.transaction_count)).getD 0 + 1
          offline_transaction_count :=
            ((findStats p.senderWalletId today db).map
              (fun x => x.offline_transaction_count)).getD 0 + 1
          total_amount_paise :=
            ((findStats p.senderWalletId today db).map
              (fun x => x.total_amount_paise)).getD 0 + p.amountPaise
          updated_at := now })
      (updateWalletRows p.senderWalletId (fun x =>
        { x with
          offline_balance_paise := w.offline_balance_paise - p.amountPaise
          pending_sync_count := w.pending_sync_count + 1
          sync_deadline := some (w.sync_deadline.getD (now + SYNC_DEADLINE_MS)) })
        { db with transactions := db.transactions ++ [newOfflineTx p now txId refId] })
      (fun s => rfl) (fun s => rfl)
    rw [hst] at hkey
    rw [hkey, findStats_wallet_invariant, findStats_txs_invariant, hst]
    exact ⟨{ ts with
        transaction_count := ts.transaction_count + 1
        offline_transaction_count := ts.offline_transaction_count + 1
        total_amount_paise := ts.total_amount_paise + p.amountPaise
        updated_at := now },
      by simp, by simp, by simp, by simp⟩
  | none =>
    have hbase : findStats p.senderWalletId today
        (updateWalletRows p.senderWalletId (fun x =>
          { x with
            offline_balance_paise := w.offline_balance_paise - p.amountPaise
            pending_sync_count := w.pending_sync_count + 1
            sync_deadline := some (w.sync_deadline.getD (now + SYNC_DEADLINE_MS)) })
          { db with transactions := db.transactions ++ [newOfflineTx p now txId refId] }) =
        none := by
      rw [findStats_wallet_invariant, findStats_txs_invariant]
      exact hst
    unfold findStats at hbase ⊢
    dsimp only
    rw [List.find?_append, hbase]
    simp [hst]

theorem policy_npci_iff (p : CreateTxParams) (now : Int) (today : Nat)
    (db : DB) :
    admissionPolicyError p now today db = some msgNpciLimit ↔
      NPCI_MAX_TRANSACTION_AMOUNT < p.amountPaise := by
  constructor
  · intro h
    unfold admissionPolicyError at h
    dsimp only at h
    repeat' split at h
    all_goals first
      | assumption
      | (injection h with hh; exact absurd hh (by decide))
      | exact Option.noConfusion h
  · intro h
    have h1 : ¬ p.amountPaise ≤ 0 := by
      have h0 : (0 : Int) < NPCI_MAX_TRANSACTION_AMOUNT := by decide
      omega
    unfold admissionPolicyError
    rw [if_neg h1, if_pos h]

/-- Claim C2: a successful admission appends exactly one new pending
transaction row carrying the requested amount, debits the wallet offline
balance by exactly that amount, increments the pending count by one, fills
the sync-deadline field, and advances all three daily counters — all in the
single state transition of the one-unit write. -/
theorem admission_success_postconditions (p : CreateTxParams) (now : Int)
    (today : Nat) (txId stId refId : String) (db : DB) (tx : LocalTransaction)
    (db2 : DB) (w : LocalWalletState)
    (h : createOfflineTransaction p now today txId stId refId db = (.success tx, db2))
    (hw : findWallet p.senderWalletId db = some w) :
    db2.transactions = db.transactions ++ [tx] ∧
    tx.status = .pending ∧
    tx.amount_paise = p.amountPaise ∧
    findWallet p.senderWalletId db2 = some { w with
      offline_balance_paise := w.offline_balance_paise - p.amountPaise
      pending_sync_count := w.pending_sync_count + 1
      sync_deadline := some (w.sync_deadline.getD (now + SYNC_DEADLINE_MS)) } ∧
    (∃ s, findStats p.senderWalletId today db2 = some s ∧
      s.transaction_count =
        ((findStats p.senderWalletId today db).map
          (fun x => x.transaction_count)).getD 0 + 1 ∧
      s.offline_transaction_count =
        ((findStats p.senderWalletId today db).map
          (fun x => x.offline_transaction_count)).getD 0 + 1 ∧
      s.total_amount_paise =
        ((findStats p.senderWalletId today db).map
          (fun x => x.total_amount_paise)).getD 0 + p.amountPaise) := by
  obtain ⟨htx, hdb2, hpol⟩ := create_success_spec p now today txId stId refId db tx db2 h
  subst htx
  subst hdb2
  exact ⟨admitSuccessDB_transactions p now today txId stId refId db w hw,
    rfl, rfl,
    admitSuccessDB_wallet p now today txId stId refId db w hw,
    admitSuccessDB_stats p now today txId stId refId db w hw⟩

/-- Witness for C2: the basic-payment scenario — admitting 10000 paise on
the cleanly synced wallet appends exactly the new pending row. -/
theorem admission_success_postconditions_witness :
    exAdmit1.2.transactions =
      exBaseDB.transactions ++ [newOfflineTx (exParams 10000) 100 "txA" "REF1"] :=
  (admission_success_postconditions (exParams 10000) 100 0 "txA" "stA" "REF1"
    exBaseDB (newOfflineTx (exParams 10000) 100 "txA" "REF1") exAdmit1.2
    { localWalletOfServer exServerWallet 0 with last_sync_at := some 0 }
    (by decide) (by decide)).1

/-- Claim C3: every rejected admission returns with the store exactly as it
was, and (when the generated ids are fresh) the returned error is precisely
the rejection reason computed by the policy cascade on the pre-call
snapshot. -/
theorem admission_rejection_atomicity (p : CreateTxParams) (now : Int)
    (today : Nat) (txId stId refId : String) (db : DB) :
    (∀ e db2, createOfflineTransaction p now today txId stId refId db =
      (.failure e, db2) → db2 = db) ∧
    (db.transactions.all (fun t => !(t.id == txId)) = true →
     db.dailyStats.all (fun s => !(s.id == stId)) = true →
     ∀ e, (createOfflineTransaction p now today txId stId refId db).1 =
        .failure e ↔ admissionPolicyError p now today db = some e) := by
  constructor
  · intro e db2 h
    exact create_failure_preserves p now today txId stId refId db e db2 h
  · intro htx hst e
    have g1 : db.transactions.any (fun t => t.id == txId) = false := by
      rw [List.any_eq_false]
      intro x hx
      simpa using List.all_eq_true.mp htx x hx
    have g2 : db.dailyStats.any (fun s => s.id == stId) = false := by
      rw [List.any_eq_false]
      intro x hx
      simpa using List.all_eq_true.mp hst x hx
    constructor
    · intro h
      cases hp : admissionPolicyError p now today db with
      | some e2 =>
        rw [create_of_policy_some p now today txId stId refId db e2 hp] at h
        dsimp only at h
        injection h with h3
        rw [h3]
      | none =>
        rw [create_eq_policy, hp] at h
        dsimp only at h
        rw [g1] at h
        simp only [Bool.false_eq_true, if_false, g2, Bool.and_false] at h
        exact absurd h (by simp)
    · intro hp
      rw [create_of_policy_some p now today txId stId refId db e hp]

/-- Witness for C3: the limit-rejection scenario (150000 paise against the
strict wallet) leaves the store untouched and reports exactly the NPCI
per-transaction reason. -/
theorem admission_rejection_atomicity_witness :
    exLimitReject.2 = exStrictDB ∧
    ((createOfflineTransaction (exParams 150000) 100 0 "txD" "stD" "REF4"
        exStrictDB).1 = .failure msgNpciLimit ↔
      admissionPolicyError (exParams 150000) 100 0 exStrictDB =
        some msgNpciLimit) :=
  ⟨(admission_rejection_atomicity (exParams 150000) 100 0 "txD" "stD" "REF4"
      exStrictDB).1 msgNpciLimit exLimitReject.2 (by decide),
   (admission_rejection_atomicity (exParams 150000) 100 0 "txD" "stD" "REF4"
      exStrictDB).2 (by decide) (by decide) msgNpciLimit⟩

/-- Claim C4 (amended): admission rejects with the per-transaction-limit
reason exactly when the amount exceeds the fixed global NPCI constant
(100000 paise); the wallet record carries its own max_transaction_paise but
the admission path never consults it. -/
theorem per_transaction_limit_uses_global_constant (p : CreateTxParams)
    (now : Int) (today : Nat) (txId stId refId : String) (db : DB) :
    (createOfflineTransaction p now today txId stId refId db).1 =
        .failure msgNpciLimit ↔
      NPCI_MAX_TRANSACTION_AMOUNT < p.amountPaise := by
  constructor
  · intro h
    cases hp : admissionPolicyError p now today db with
    | some e2 =>
      rw [create_of_policy_some p now today txId stId refId db e2 hp] at h
      dsimp only at h
      injection h with h3
      rw [h3] at hp
      exact (policy_npci_iff p now today db).mp hp
    | none =>
      rw [create_eq_policy, hp] at h
      dsimp only at h
      by_cases g1 : db.transactions.any (fun t => t.id == txId)
      · rw [if_pos g1] at h
        injection h with h3
        exact absurd h3 (by decide)
      · rw [if_neg g1] at h
        by_cases g2 : (findStats p.senderWalletId today db == none) &&
            db.dailyStats.any (fun s => s.id == stId)
        · rw [if_pos g2] at h
          injection h with h3
          exact absurd h3 (by decide)
        · rw [if_neg g2] at h
          exact absurd h (by simp)
  · intro hgt
    rw [create_of_policy_some p now today txId stId refId db msgNpciLimit
      ((policy_npci_iff p now today db).mpr hgt)]

/-- Counterexample to C4 as stated: wallet w1 caps its transactions at
50000 paise, yet admitting 60000 paise (below the global constant) still
succeeds — the wallet cap is never checked. -/
theorem per_transaction_limit_counterexample :
    exStrictAdmit.1.isSuccess = true ∧
    exStrictWallet.max_transaction_paise < (exParams 60000).amountPaise := by decide

/-- Claim C5 (amended): admission always writes
`sync_deadline := old deadline, or now + 4 days when none was stored` — the
trigger is a null deadline field, not a zero pending count — and a wallet
sync pass whose freshly re-based projection reports zero pending clears the
deadline (and zeroes the pending count) on every stored row of that wallet. -/
theorem sync_deadline_lifecycle (p : CreateTxParams) (now : Int) (today : Nat)
    (txId stId refId : String) (db : DB) :
    (∀ tx db2 w,
      createOfflineTransaction p now today txId stId refId db = (.success tx, db2) →
      findWallet p.senderWalletId db = some w →
      (findWallet p.senderWalletId db2).map (fun x => x.sync_deadline) =
        some (some (w.sync_deadline.getD (now + SYNC_DEADLINE_MS)))) ∧
    (∀ (sw : ServerWallet), sw.pending_sync_count = 0 →
      ∀ w3 ∈ ((syncWalletState now (some sw) db).2).walletState, w3.id = sw.id →
        w3.sync_deadline = none ∧ w3.pending_sync_count = 0) := by
  constructor
  · intro tx db2 w h hw
    obtain ⟨htx, hdb2, hpol⟩ :=
      create_success_spec p now today txId stId refId db tx db2 h
    subst hdb2
    rw [admitSuccessDB_wallet p now today txId stId refId db w hw]
    rfl
  · intro sw hpend w3 hw3 hid
    unfold syncWalletState syncWalletStateFromServer at hw3
    dsimp only at hw3
    rw [show (localWalletOfServer sw now).pending_sync_count =
      sw.pending_sync_count from rfl, hpend] at hw3
    rw [if_pos rfl] at hw3
    unfold clearSyncDeadline updateLastSyncTimestamp updateWalletRows at hw3
    dsimp only at hw3
    rw [List.map_map] at hw3
    rcases List.mem_map.mp hw3 with ⟨x, hx, hfx⟩
    by_cases hxid : x.id == (localWalletOfServer sw now).id
    · rw [Function.comp_apply, if_pos hxid] at hfx
      have hfid : ((fun w : LocalWalletState =>
          { w with last_sync_at := some now }) x).id = x.id := rfl
      rw [if_pos (by rw [hfid]; exact hxid)] at hfx
      rw [← hfx]
      exact ⟨rfl, rfl⟩
    · rw [Function.comp_apply, if_neg hxid] at hfx
      rw [if_neg hxid] at hfx
      rw [← hfx] at hid
      exact absurd hid (by simpa [localWalletOfServer] using hxid)

/-- Witness for C5: the second admission (time 1000 on the drained wallet)
keeps the stale deadline value stored since the first admission. -/
theorem sync_deadline_lifecycle_witness :
    (findWallet "w1" exAdmit2.2).map (fun x => x.sync_deadline) =
      some (some (exDrainedWallet.sync_deadline.getD (1000 + SYNC_DEADLINE_MS))) :=
  (sync_deadline_lifecycle (exParams 5000) 1000 0 "txB" "stB" "REF2" exDrained).1
    (newOfflineTx (exParams 5000) 1000 "txB" "REF2") exAdmit2.2 exDrainedWallet
    (by decide) (by decide)

/-- Counterexample to C5 as stated: after the first transaction is synced
the pending count is back to 0 but the deadline (345600100) is still stored;
admitting again at time 1000 succeeds yet keeps that stale deadline instead
of setting 1000 + 4 days = 345601000. -/
theorem sync_deadline_counterexample :
    (findWallet "w1" exDrained).map (fun w => w.pending_sync_count) = some 0 ∧
    exAdmit2.1.isSuccess = true ∧
    (findWallet "w1" exAdmit2.2).map (fun w => w.sync_deadline) =
      some (some 345600100) ∧
    (1000 : Int) + SYNC_DEADLINE_MS = 345601000 := by decide

end UPIOffline
